import Mathlib

/-!
Verification of the webboard JSON-RPC 2.0 dispatcher
(`src/features/jsonrpc/{domain,application}`) against its specification.

Modelling conventions:
* `serde_json::Value` is modelled by the inductive `Webboard.Value`; JSON
  numbers are modelled as rationals (`ℚ`), which represent every numeric value
  appearing in the claims exactly (the source stores numbers as
  `i64`/`u64`/`f64`; all arithmetic in the claims is exact in `f64`).
* Rust `Result<A, E>` is modelled by `Except E A`, async handlers by pure
  functions `Option Value → Except JsonRpcErrorObject Value` (the dispatcher
  only ever awaits a handler to completion, so its observable behaviour is the
  returned outcome).
* The `HashMap<String, MethodHandler>` registry is modelled as an association
  list with HashMap `insert` semantics (replace the entry if the key is
  present, otherwise add it); the `RwLock`/`Arc` wrappers disappear because
  each claim is about a single dispatch against a fixed registry state.
* `JsonRpcService::new` spawns four detached tasks to register the built-in
  methods (`tokio::spawn` fire-and-forget).  This is modelled by
  `JsonRpcService.new` returning the registry state at the moment `new`
  returns (empty) together with the list of pending registration actions;
  `runPending` is the state after the spawned tasks have all executed.
-/

namespace Webboard

/-- Model of `serde_json::Value`. Numbers are modelled as rationals. -/
inductive Value where
  | null : Value
  | bool (b : Bool) : Value
  | num (q : ℚ) : Value
  | str (s : String) : Value
  | arr (elems : List Value) : Value
  | obj (fields : List (String × Value)) : Value

/-- Model of `serde_json::Value::as_array`. -/
def Value.as_array : Value → Option (List Value)
  | .arr elems => some elems
  | _ => none

/-- Model of `serde_json::Value::as_f64`: every JSON number converts. -/
def Value.as_f64 : Value → Option ℚ
  | .num q => some q
  | _ => none

/-- `JsonRpcErrorCode` from `domain/error_code.rs`. -/
inductive JsonRpcErrorCode where
  | ParseError
  | InvalidRequest
  | MethodNotFound
  | InvalidParams
  | InternalError
  | ServerError

/-- `JsonRpcErrorCode::code` — the numeric discriminants of the Rust enum. -/
def JsonRpcErrorCode.code : JsonRpcErrorCode → Int
  | .ParseError => -32700
  | .InvalidRequest => -32600
  | .MethodNotFound => -32601
  | .InvalidParams => -32602
  | .InternalError => -32603
  | .ServerError => -32000

/-- `JsonRpcErrorCode::message`. -/
def JsonRpcErrorCode.message : JsonRpcErrorCode → String
  | .ParseError => "Parse error"
  | .InvalidRequest => "Invalid Request"
  | .MethodNotFound => "Method not found"
  | .InvalidParams => "Invalid params"
  | .InternalError => "Internal error"
  | .ServerError => "Server error"

/-- `JsonRpcErrorObject` from `domain/error_code.rs`. -/
structure JsonRpcErrorObject where
  code : Int
  message : String
  data : Option Value

/-- `JsonRpcErrorObject::new`. -/
def JsonRpcErrorObject.new (code : JsonRpcErrorCode) (data : Option Value) :
    JsonRpcErrorObject :=
  { code := code.code, message := code.message, data := data }

/-- `JsonRpcErrorObject::custom`. -/
def JsonRpcErrorObject.custom (code : JsonRpcErrorCode) (message : String)
    (data : Option Value) : JsonRpcErrorObject :=
  { code := code.code, message := message, data := data }

/-- `JsonRpcRequest` from `domain/message.rs`. -/
structure JsonRpcRequest where
  jsonrpc : String
  method : String
  params : Option Value
  id : Option Value

/-- `JsonRpcRequest::new` — fills in `jsonrpc = "2.0"`. -/
def JsonRpcRequest.new (method : String) (params : Option Value)
    (id : Option Value) : JsonRpcRequest :=
  { jsonrpc := "2.0", method := method, params := params, id := id }

/-- `JsonRpcRequest::is_notification`: true iff the `id` field is absent. -/
def JsonRpcRequest.is_notification (r : JsonRpcRequest) : Bool :=
  r.id.isNone

/-- Model of Rust `str::starts_with(pre)`: the byte sequence of `s` begins
with that of `pre`, which for whole strings of valid UTF-8 is exactly the
character-sequence relation below. -/
def stringStartsWith (s pre : String) : Bool :=
  pre.data.isPrefixOf s.data

/-- `JsonRpcRequest::validate`, translated clause by clause
(`self.method.is_empty()` is the check `method = ""`). -/
def JsonRpcRequest.validate (r : JsonRpcRequest) : Except String Unit :=
  if r.jsonrpc ≠ "2.0" then
    .error "Invalid JSON-RPC version. Must be \x272.0\x27"
  else if r.method = "" then
    .error "Method name cannot be empty"
  else if stringStartsWith r.method "rpc." then
    .error "Method names starting with \x27rpc.\x27 are reserved"
  else
    .ok ()

/-- `JsonRpcResponse` (success) from `domain/message.rs`. -/
structure JsonRpcResponse where
  jsonrpc : String
  result : Value
  id : Value

/-- `JsonRpcResponse::new`. -/
def JsonRpcResponse.new (result : Value) (id : Value) : JsonRpcResponse :=
  { jsonrpc := "2.0", result := result, id := id }

/-- `JsonRpcErrorResponse` from `domain/message.rs`. -/
structure JsonRpcErrorResponse where
  jsonrpc : String
  error : JsonRpcErrorObject
  id : Value

/-- `JsonRpcErrorResponse::new`. -/
def JsonRpcErrorResponse.new (error : JsonRpcErrorObject) (id : Value) :
    JsonRpcErrorResponse :=
  { jsonrpc := "2.0", error := error, id := id }

/-- `JsonRpcErrorResponse::from_code`. -/
def JsonRpcErrorResponse.from_code (code : JsonRpcErrorCode) (id : Value) :
    JsonRpcErrorResponse :=
  JsonRpcErrorResponse.new (JsonRpcErrorObject.new code none) id

/-- `JsonRpcErrorResponse::custom`. -/
def JsonRpcErrorResponse.custom (code : JsonRpcErrorCode) (message : String)
    (id : Value) : JsonRpcErrorResponse :=
  JsonRpcErrorResponse.new (JsonRpcErrorObject.custom code message none) id

/-- The type of method handlers: `Fn(Option<Value>) -> Result<Value, JsonRpcErrorObject>`
(`async` dropped — the dispatcher always awaits the handler to completion). -/
def MethodHandler : Type := Option Value → Except JsonRpcErrorObject Value

/-- The method registry: `HashMap<String, MethodHandler>` modelled as an
association list whose keys occur at most once. -/
abbrev Registry : Type := List (String × MethodHandler)

/-- `HashMap::get` — the handler registered under `name`, if any. -/
def Registry.lookup (methods : Registry) (name : String) : Option MethodHandler :=
  (methods.find? (fun p => p.1 == name)).map (·.2)

/-- `JsonRpcService::register_method`, i.e. `HashMap::insert`: replace the
entry for `name` if one is present (a `HashMap` holds at most one entry per
key), otherwise add one.  Total — it never fails. -/
def Registry.register_method : Registry → String → MethodHandler → Registry
  | [], name, handler => [(name, handler)]
  | p :: t, name, handler =>
      if p.1 == name then (name, handler) :: t
      else p :: Registry.register_method t name handler

/-- How many entries of the registry carry the key `name`. -/
def Registry.countKey (methods : Registry) (name : String) : Nat :=
  methods.countP (fun p => p.1 == name)

/-- `JsonRpcService::handle_request` from `application/service.rs`, translated
step by step: validate (returning an `InvalidRequest` error response on
failure), then the notification check (invoke the handler if registered and
discard its outcome, returning no response), then handler lookup
(`MethodNotFound` if absent), then handler invocation with the success /
handler-error outcomes wrapped as `Response` / `ErrorResponse`. -/
def JsonRpcService.handle_request (methods : Registry) (request : JsonRpcRequest) :
    Option (Except JsonRpcErrorResponse JsonRpcResponse) :=
  match request.validate with
  | .error e =>
      some (.error (JsonRpcErrorResponse.custom .InvalidRequest e
        (request.id.getD .null)))
  | .ok () =>
      if request.is_notification then
        -- the source invokes the handler here and discards `Result` with `let _ =`
        none
      else
        let id := request.id.getD .null
        match Registry.lookup methods request.method with
        | none =>
            some (.error (JsonRpcErrorResponse.custom .MethodNotFound
              ("Method \x27" ++ request.method ++ "\x27 not found") id))
        | some handler =>
            match handler request.params with
            | .ok result => some (.ok (JsonRpcResponse.new result id))
            | .error error => some (.error (JsonRpcErrorResponse.new error id))

/-- The built-in `echo` handler: returns the parameters sent (null if absent). -/
def echoHandler : MethodHandler :=
  fun params => .ok (params.getD .null)

/-- The built-in `ping` handler.  `chrono::Utc::now().timestamp()` is a wall
clock read; it is modelled by the parameter `now`. -/
def pingHandler (now : Int) : MethodHandler :=
  fun _params => .ok (.obj [("pong", .bool true), ("timestamp", .num (now : ℚ))])

/-- The built-in `add` handler, translated clause by clause: params required,
must be an array, of exactly two elements, each a number; returns their sum. -/
def addHandler : MethodHandler :=
  fun params => do
    let params ← match params with
      | some p => pure p
      | none => .error (JsonRpcErrorObject.custom .InvalidParams
          "Parameters required" none)
    let numbers ← match params.as_array with
      | some ns => pure ns
      | none => .error (JsonRpcErrorObject.custom .InvalidParams
          "Parameters must be an array of numbers" none)
    if numbers.length ≠ 2 then
      .error (JsonRpcErrorObject.custom .InvalidParams
        "Exactly two numbers required" none)
    else do
      let a ← match (numbers.getD 0 .null).as_f64 with
        | some a => pure a
        | none => .error (JsonRpcErrorObject.custom .InvalidParams
            "First parameter must be a number" none)
      let b ← match (numbers.getD 1 .null).as_f64 with
        | some b => pure b
        | none => .error (JsonRpcErrorObject.custom .InvalidParams
            "Second parameter must be a number" none)
      .ok (.num (a + b))

/-- The built-in `getServerInfo` handler.  `env!("CARGO_PKG_VERSION")` is a
compile-time constant taken from the crate manifest (not under `src/`); it is
modelled by the parameter `version`. -/
def getServerInfoHandler (version : String) : MethodHandler :=
  fun _params => .ok (.obj
    [ ("name", .str "webboard")
    , ("version", .str version)
    , ("jsonrpc_version", .str "2.0")
    , ("capabilities", .arr [.str "echo", .str "ping", .str "add", .str "getServerInfo"])
    ])

/-- The state of a `JsonRpcService` together with the registration tasks that
`tokio::spawn` has detached but that may not have run yet. -/
structure ServiceState where
  methods : Registry
  pending : List (Registry → Registry)

/-- `JsonRpcService::new`: builds an empty registry, then
`register_builtin_methods` spawns one detached task per built-in method
(fire-and-forget `tokio::spawn`); none of them is awaited, so when `new`
returns, the registry holds whatever subset of them happens to have run — the
`methods` field is the registry before any spawned task runs. -/
def JsonRpcService.new (now : Int) (version : String) : ServiceState :=
  { methods := []
  , pending :=
      [ fun r => Registry.register_method r "echo" echoHandler
      , fun r => Registry.register_method r "ping" (pingHandler now)
      , fun r => Registry.register_method r "add" addHandler
      , fun r => Registry.register_method r "getServerInfo" (getServerInfoHandler version)
      ] }

/-- The registry after every spawned registration task has executed. -/
def ServiceState.runPending (s : ServiceState) : Registry :=
  s.pending.foldl (fun r f => f r) s.methods

/-- `JsonRpcService::list_methods`. -/
def ServiceState.list_methods (s : ServiceState) : List String :=
  s.methods.map (·.1)

/-- Field access on a serialized JSON object, as serde does it: the value of
the first field named `name`. -/
def getField (fields : List (String × Value)) (name : String) : Option Value :=
  (fields.find? (fun p => p.1 == name)).map (·.2)

/-- Deserializing a `String` struct field from a JSON value. -/
def Value.asString : Value → Option String
  | .str s => some s
  | _ => none

/-- Deserializing an `i32` struct field from a JSON value: serde accepts an
integral JSON number (the error codes in play are tiny, so the `i32` range
check never fires and is omitted). -/
def Value.asInt : Value → Option Int
  | .num q => if q.den = 1 then some q.num else none
  | _ => none

/-- `Serialize` for `JsonRpcErrorObject` as derived: fields `code`, `message`,
and `data` — the latter skipped when `None` (`skip_serializing_if`). -/
def encodeErrorObject (e : JsonRpcErrorObject) : Value :=
  .obj ([("code", .num (e.code : ℚ)), ("message", .str e.message)] ++
    (match e.data with
     | some d => [("data", d)]
     | none => []))

/-- `Deserialize` for `JsonRpcErrorObject` as derived: an object with a
numeric `code`, a string `message`, and an optional `data` (absent ↦ `None`). -/
def decodeErrorObject (v : Value) : Option JsonRpcErrorObject :=
  match v with
  | .obj fields => do
      let code ← getField fields "code" >>= Value.asInt
      let message ← getField fields "message" >>= Value.asString
      some { code := code, message := message, data := getField fields "data" }
  | _ => none

/-- `Serialize` for `JsonRpcResponse` as derived: fields `jsonrpc`, `result`,
`id`, all always present. -/
def encodeResponse (r : JsonRpcResponse) : Value :=
  .obj [("jsonrpc", .str r.jsonrpc), ("result", r.result), ("id", r.id)]

/-- `Deserialize` for `JsonRpcResponse` as derived. -/
def decodeResponse (v : Value) : Option JsonRpcResponse :=
  match v with
  | .obj fields => do
      let jsonrpc ← getField fields "jsonrpc" >>= Value.asString
      let result ← getField fields "result"
      let id ← getField fields "id"
      some { jsonrpc := jsonrpc, result := result, id := id }
  | _ => none

/-- `Serialize` for `JsonRpcErrorResponse` as derived: fields `jsonrpc`,
`error` (the nested error object), `id`. -/
def encodeErrorResponse (r : JsonRpcErrorResponse) : Value :=
  .obj [("jsonrpc", .str r.jsonrpc), ("error", encodeErrorObject r.error), ("id", r.id)]

/-- `Deserialize` for `JsonRpcErrorResponse` as derived. -/
def decodeErrorResponse (v : Value) : Option JsonRpcErrorResponse :=
  match v with
  | .obj fields => do
      let jsonrpc ← getField fields "jsonrpc" >>= Value.asString
      let error ← getField fields "error" >>= decodeErrorObject
      let id ← getField fields "id"
      some { jsonrpc := jsonrpc, error := error, id := id }
  | _ => none

/-- The registry of a freshly built service once all four spawned
registration tasks have run (clock and crate version instantiated arbitrarily;
no claim inspects the values they produce). -/
def builtinRegistry : Registry :=
  (JsonRpcService.new 0 "0.1.0").runPending

/-- Scenario A request: `{"jsonrpc":"2.0","method":"add","params":[2,3],"id":7}`. -/
def addCallTwo : JsonRpcRequest :=
  ⟨"2.0", "add", some (.arr [.num 2, .num 3]), some (.num 7)⟩

/-- Scenario B request: `{"jsonrpc":"2.0","method":"add","params":[2],"id":7}`. -/
def addCallOne : JsonRpcRequest :=
  ⟨"2.0", "add", some (.arr [.num 2]), some (.num 7)⟩

/-- A call to the built-in `echo` method: `{"jsonrpc":"2.0","method":"echo","id":1}`. -/
def echoCall : JsonRpcRequest :=
  ⟨"2.0", "echo", none, some (.num 1)⟩

/-- A notification (no `id`) that fails validation: its `jsonrpc` field is `"1.0"`. -/
def invalidNote : JsonRpcRequest :=
  ⟨"1.0", "note", none, none⟩

/-- A well-formed notification: version `"2.0"`, ordinary method name, no `id`. -/
def validNote : JsonRpcRequest :=
  ⟨"2.0", "echo", none, none⟩

/-- A well-formed call to a method name that no registry entry carries. -/
def missingCall : JsonRpcRequest :=
  ⟨"2.0", "nope", none, some (.num 1)⟩

/-- A well-formed call to the method name `"m"` (used with the demo registries). -/
def mCall : JsonRpcRequest :=
  ⟨"2.0", "m", none, some (.num 9)⟩

/-- A demo handler that always succeeds with the string `"pong"`. -/
def okHandler : MethodHandler :=
  fun _ => .ok (.str "pong")

/-- A demo handler that always fails with a server-defined error object
carrying custom code, message and data. -/
def errHandler : MethodHandler :=
  fun _ => .error ⟨-32000, "boom", some (.num 3)⟩

/-- A demo handler returning null. -/
def handlerA : MethodHandler :=
  fun _ => .ok .null

/-- A demo handler returning true. -/
def handlerB : MethodHandler :=
  fun _ => .ok (.bool true)

/-- A demo registry whose only method `"m"` succeeds. -/
def regOk : Registry := [("m", okHandler)]

/-- A demo registry whose only method `"m"` fails. -/
def regErr : Registry := [("m", errHandler)]

/-- A sample success response with a string id. -/
def sampleResp : JsonRpcResponse :=
  ⟨"2.0", .arr [.num 5, .null], .str "abc"⟩

/-- A sample error response with a null id and a data payload. -/
def sampleErr : JsonRpcErrorResponse :=
  ⟨"2.0", ⟨-32700, "Parse error", some (.str "detail")⟩, .null⟩

/-! ## Theorems -/

/-- C2: for every `JsonRpcRequest`, `validate()` succeeds iff `jsonrpc` equals
`"2.0"`, `method` is non-empty, and `method` does not start with `"rpc."`; and
`validate()` always returns either success or an error, so whenever one of the
conditions fails it returns an error (which `handle_request` surfaces as an
`InvalidRequest` error response). -/
theorem c2_validate_iff (r : JsonRpcRequest) :
    (r.validate = .ok () ↔
      (r.jsonrpc = "2.0" ∧ r.method ≠ "" ∧ stringStartsWith r.method "rpc." = false)) ∧
    (r.validate = .ok () ∨ ∃ e, r.validate = .error e) := by
  constructor
  · unfold JsonRpcRequest.validate
    split_ifs with h1 h2 h3 <;> simp_all
  · cases h : r.validate with
    | ok u => cases u; exact .inl rfl
    | error e => exact .inr ⟨e, rfl⟩

/-- Witness for C2 at the request `{"jsonrpc":"2.0","method":"test.method","id":1}`. -/
theorem c2_witness :
    JsonRpcRequest.validate (JsonRpcRequest.new "test.method" none (some (.num 1))) = .ok () :=
  (c2_validate_iff _).1.mpr ⟨rfl, by decide, rfl⟩

/-- C1 as stated is false: an id-less request is validated before the
notification check, so the id-less request `{"jsonrpc":"1.0","method":"note"}`
has `is_notification() = true` yet `handle_request` returns `Some`, not
`None`. -/
theorem c1_counterexample :
    invalidNote.id = none ∧
    invalidNote.is_notification = true ∧
    (JsonRpcService.handle_request [] invalidNote).isSome = true :=
  ⟨rfl, rfl, rfl⟩

/-- C1 (amended): for every request whose `id` is absent and which passes
`validate()`, `is_notification()` is true and `handle_request` returns `None`,
regardless of the registry contents and of any handler outcome. -/
theorem c1_valid_notification_none (methods : Registry) (r : JsonRpcRequest)
    (hid : r.id = none) (hval : r.validate = .ok ()) :
    r.is_notification = true ∧ JsonRpcService.handle_request methods r = none := by
  have hnote : r.is_notification = true := by
    simp [JsonRpcRequest.is_notification, hid]
  refine ⟨hnote, ?_⟩
  simp [JsonRpcService.handle_request, hval, hnote]

/-- Witness for C1 (amended) at a valid notification for `echo` and the empty
registry. -/
theorem c1_witness :
    validNote.is_notification = true ∧
    JsonRpcService.handle_request [] validNote = none :=
  c1_valid_notification_none [] validNote rfl rfl

/-- C10: a request whose `id` is absent but whose `validate()` fails does not
fall through to the notification branch: `handle_request` returns
`Some(Err(...))` with code -32600 and a null id. -/
theorem c10_invalid_notification_error (methods : Registry) (r : JsonRpcRequest)
    (e : String) (hid : r.id = none) (hval : r.validate = .error e) :
    JsonRpcService.handle_request methods r =
      some (.error ⟨"2.0", ⟨-32600, e, none⟩, .null⟩) ∧
    (JsonRpcService.handle_request methods r).isSome = true := by
  have h : JsonRpcService.handle_request methods r =
      some (.error ⟨"2.0", ⟨-32600, e, none⟩, .null⟩) := by
    simp [JsonRpcService.handle_request, hval, hid, JsonRpcErrorResponse.custom,
      JsonRpcErrorObject.custom, JsonRpcErrorResponse.new, JsonRpcErrorCode.code]
  exact ⟨h, by rw [h]; rfl⟩

/-- Witness for C10 at the invalid notification `{"jsonrpc":"1.0","method":"note"}`. -/
theorem c10_witness :
    JsonRpcService.handle_request [] invalidNote =
      some (.error ⟨"2.0",
        ⟨-32600, "Invalid JSON-RPC version. Must be \x272.0\x27", none⟩, .null⟩) ∧
    (JsonRpcService.handle_request [] invalidNote).isSome = true :=
  c10_invalid_notification_error [] invalidNote
    "Invalid JSON-RPC version. Must be \x272.0\x27" rfl rfl

/-- C3: for every valid request with a present `id` whose method is not in the
registry, `handle_request` returns `Some(Err(...))` with code -32601, message
`"Method '<name>' not found"` for the request's method name, and the request's
own id. -/
theorem c3_method_not_found (methods : Registry) (r : JsonRpcRequest) (i : Value)
    (hval : r.validate = .ok ()) (hid : r.id = some i)
    (hlook : Registry.lookup methods r.method = none) :
    JsonRpcService.handle_request methods r =
      some (.error ⟨"2.0",
        ⟨-32601, "Method \x27" ++ r.method ++ "\x27 not found", none⟩, i⟩) := by
  simp [JsonRpcService.handle_request, hval, JsonRpcRequest.is_notification, hid, hlook,
    JsonRpcErrorResponse.custom, JsonRpcErrorObject.custom, JsonRpcErrorResponse.new,
    JsonRpcErrorCode.code]

/-- Witness for C3: a call to the unregistered method `"nope"` against the
empty registry. -/
theorem c3_witness :
    JsonRpcService.handle_request [] missingCall =
      some (.error ⟨"2.0",
        ⟨-32601, "Method \x27" ++ missingCall.method ++ "\x27 not found", none⟩, .num 1⟩) :=
  c3_method_not_found [] missingCall (.num 1) rfl rfl rfl

/-- C4: for every valid call whose method resolves to a handler,
`handle_request` wraps a handler success as `Some(Ok(Response{result, id}))`
and a handler failure as `Some(Err(ErrorResponse{error, id}))`, passing the
handler's error object through with code, message and data unchanged, and
echoing the request's id in both cases. -/
theorem c4_handler_outcome (methods : Registry) (r : JsonRpcRequest) (i : Value)
    (h : MethodHandler)
    (hval : r.validate = .ok ()) (hid : r.id = some i)
    (hlook : Registry.lookup methods r.method = some h) :
    (∀ result, h r.params = .ok result →
      JsonRpcService.handle_request methods r = some (.ok ⟨"2.0", result, i⟩)) ∧
    (∀ e, h r.params = .error e →
      JsonRpcService.handle_request methods r = some (.error ⟨"2.0", e, i⟩)) := by
  constructor
  · intro result hres
    simp [JsonRpcService.handle_request, hval, JsonRpcRequest.is_notification, hid, hlook,
      hres, JsonRpcResponse.new]
  · intro e herr
    simp [JsonRpcService.handle_request, hval, JsonRpcRequest.is_notification, hid, hlook,
      herr, JsonRpcErrorResponse.new]

/-- Witness for C4: the call to `"m"` against a registry whose handler
succeeds with `"pong"`, and against one whose handler fails with a custom
error object (code -32000, message `"boom"`, data 3), which passes through. -/
theorem c4_witness :
    JsonRpcService.handle_request regOk mCall =
      some (.ok ⟨"2.0", .str "pong", .num 9⟩) ∧
    JsonRpcService.handle_request regErr mCall =
      some (.error ⟨"2.0", ⟨-32000, "boom", some (.num 3)⟩, .num 9⟩) :=
  ⟨(c4_handler_outcome regOk mCall (.num 9) okHandler rfl rfl rfl).1 _ rfl,
   (c4_handler_outcome regErr mCall (.num 9) errHandler rfl rfl rfl).2 _ rfl⟩

/-- C5 fails on the code: `JsonRpcService::new` registers the built-ins in
detached `tokio::spawn` tasks and never awaits them, so at the moment `new`
returns the registry is still empty and a call to `echo` dispatched before the
spawned tasks run is answered with `MethodNotFound` (-32601).  Only after all
four pending registration tasks execute are `echo`, `ping`, `add` and
`getServerInfo` present.  (The repository's own test sleeps 100 ms to "give
some time for builtin methods to register".) -/
theorem c5_builtin_registration_race :
    (JsonRpcService.new 0 "0.1.0").methods = [] ∧
    JsonRpcService.handle_request (JsonRpcService.new 0 "0.1.0").methods echoCall =
      some (.error ⟨"2.0", ⟨-32601, "Method \x27echo\x27 not found", none⟩, .num 1⟩) ∧
    (Registry.lookup builtinRegistry "echo").isSome = true ∧
    (Registry.lookup builtinRegistry "ping").isSome = true ∧
    (Registry.lookup builtinRegistry "add").isSome = true ∧
    (Registry.lookup builtinRegistry "getServerInfo").isSome = true :=
  ⟨rfl, rfl, rfl, rfl, rfl, rfl⟩

/-- C6: dispatching `{"jsonrpc":"2.0","method":"add","params":[2,3],"id":7}`
against the registry holding the built-ins yields the success response with
result the number 5 and id 7. -/
theorem c6_add_two_three :
    JsonRpcService.handle_request builtinRegistry addCallTwo =
      some (.ok ⟨"2.0", .num 5, .num 7⟩) := by
  have h5 : (2 : ℚ) + 3 = 5 := by norm_num
  calc JsonRpcService.handle_request builtinRegistry addCallTwo
      = some (.ok ⟨"2.0", .num ((2 : ℚ) + 3), .num 7⟩) := rfl
    _ = some (.ok ⟨"2.0", .num 5, .num 7⟩) := by rw [h5]

/-- C7: dispatching `{"jsonrpc":"2.0","method":"add","params":[2],"id":7}`
against the registry holding the built-ins yields an error response with code
-32602, message `"Exactly two numbers required"`, and id 7. -/
theorem c7_add_wrong_arity :
    JsonRpcService.handle_request builtinRegistry addCallOne =
      some (.error ⟨"2.0", ⟨-32602, "Exactly two numbers required", none⟩, .num 7⟩) :=
  rfl

/-- C8: serializing any `JsonRpcResponse` or `JsonRpcErrorResponse` and
deserializing the result yields the original value back, so in particular the
decoded `id` is literally the original `id` — whether null, a number, or a
string.  (Serialization is modelled at the JSON-tree level the derived serde
instances produce; `serde_json`'s value ↔ text layer is an external library
treated as the identity on well-formed trees.) -/
theorem c8_roundtrip_id (r : JsonRpcResponse) (er : JsonRpcErrorResponse) :
    decodeResponse (encodeResponse r) = some r ∧
    decodeErrorResponse (encodeErrorResponse er) = some er ∧
    (decodeResponse (encodeResponse r)).map JsonRpcResponse.id = some r.id ∧
    (decodeErrorResponse (encodeErrorResponse er)).map JsonRpcErrorResponse.id =
      some er.id := by
  have h1 : decodeResponse (encodeResponse r) = some r := rfl
  have h2 : decodeErrorResponse (encodeErrorResponse er) = some er := by
    obtain ⟨jr, ⟨c, m, d⟩, i⟩ := er
    cases d <;> rfl
  exact ⟨h1, h2, by rw [h1]; rfl, by rw [h2]; rfl⟩

/-- Witness for C8 at a success response with a string id and an error
response with a null id and a data payload. -/
theorem c8_witness :
    decodeResponse (encodeResponse sampleResp) = some sampleResp ∧
    decodeErrorResponse (encodeErrorResponse sampleErr) = some sampleErr ∧
    (decodeResponse (encodeResponse sampleResp)).map JsonRpcResponse.id =
      some sampleResp.id ∧
    (decodeErrorResponse (encodeErrorResponse sampleErr)).map JsonRpcErrorResponse.id =
      some sampleErr.id :=
  c8_roundtrip_id sampleResp sampleErr

/-- Counting entries for a key distributes over cons. -/
theorem countKey_cons (p : String × MethodHandler) (t : Registry) (name : String) :
    Registry.countKey (p :: t) name =
      Registry.countKey t name + (if p.1 == name then 1 else 0) := by
  simp [Registry.countKey, List.countP_cons]

/-- After `register_method name handler`, looking up `name` yields exactly the
handler just registered. -/
theorem lookup_register_self (methods : Registry) (name : String) (h : MethodHandler) :
    Registry.lookup (Registry.register_method methods name h) name = some h := by
  induction methods with
  | nil => simp [Registry.register_method, Registry.lookup, List.find?]
  | cons p t ih =>
    cases hpb : (p.1 == name) with
    | true => simp [Registry.register_method, hpb, Registry.lookup, List.find?]
    | false =>
      simp only [Registry.register_method, hpb, Bool.false_eq_true, if_false]
      simpa [Registry.lookup, List.find?, hpb] using ih

/-- `register_method` leaves exactly one entry under the registered key,
provided the registry respected the at-most-one-entry-per-key invariant of a
`HashMap` beforehand. -/
theorem countKey_register (methods : Registry) (name : String) (h : MethodHandler)
    (hc : Registry.countKey methods name ≤ 1) :
    Registry.countKey (Registry.register_method methods name h) name = 1 := by
  induction methods with
  | nil =>
    simp [Registry.register_method, Registry.countKey, List.countP_cons]
  | cons p t ih =>
    rw [countKey_cons] at hc
    cases hpb : (p.1 == name) with
    | true =>
      rw [hpb] at hc
      norm_num at hc
      have ht : Registry.countKey t name = 0 := by omega
      simp only [Registry.register_method, hpb, if_true]
      rw [countKey_cons, ht]
      simp
    | false =>
      rw [hpb] at hc
      have hc' : Registry.countKey t name ≤ 1 := by omega
      simp only [Registry.register_method, hpb, Bool.false_eq_true, if_false]
      rw [countKey_cons, ih hc', hpb]
      norm_num

/-- C9: registering the same name twice (over any registry respecting the
HashMap invariant of at most one entry per key) leaves exactly the second
handler active under that name and exactly one entry for it; `register_method`
is a total function, so no error is raised on the overwrite. -/
theorem c9_register_twice_last_wins (methods : Registry) (name : String)
    (h1 h2 : MethodHandler) (hc : Registry.countKey methods name ≤ 1) :
    Registry.lookup
      (Registry.register_method (Registry.register_method methods name h1) name h2)
      name = some h2 ∧
    Registry.countKey
      (Registry.register_method (Registry.register_method methods name h1) name h2)
      name = 1 := by
  refine ⟨lookup_register_self _ _ _, countKey_register _ _ _ ?_⟩
  rw [countKey_register methods name h1 hc]

/-- Witness for C9: registering `"m"` twice over the empty registry leaves the
second handler active and one entry. -/
theorem c9_witness :
    Registry.lookup
      (Registry.register_method (Registry.register_method [] "m" handlerA) "m" handlerB)
      "m" = some handlerB ∧
    Registry.countKey
      (Registry.register_method (Registry.register_method [] "m" handlerA) "m" handlerB)
      "m" = 1 :=
  c9_register_twice_last_wins [] "m" handlerA handlerB (by decide)

end Webboard
